import Mathlib

/-!
Verification of the windowManager repository (a reparenting X11 window
manager, `src/windowManager/window_manager.{hpp,cpp}`).

The embedding is a shallow one: Xlib is modelled by an oracle `XEnv`
describing what the server answers to queries, and every Xlib call the
manager issues is recorded as an `XOp` in a trace.  The manager's own
state is `WMState` (the `clients_` registry, modelled as an association
list with `std::unordered_map` semantics, plus a fresh-identifier
counter for `XCreateSimpleWindow` results).  A glog `CHECK` failure is
the `fatal` outcome (the process aborts); `Run` either aborts, returns
cleanly before the dispatch loop, or enters the loop with the state
built during startup.
-/

set_option autoImplicit false

namespace WindowManager

/-- X11 window identifier (`Window` is an unsigned integer handle). -/
abbrev Window : Type := Nat

/-- X11 `BadAccess` error code. -/
def BadAccess : Nat := 10

/-- X11 `IsViewable` map state. -/
def IsViewable : Nat := 2

/-- X11 `SubstructureRedirectMask`. -/
def SubstructureRedirectMask : Nat := 0x00100000

/-- X11 `SubstructureNotifyMask`. -/
def SubstructureNotifyMask : Nat := 0x00080000

/-- The event mask the manager selects on the root and on each frame. -/
def substructureMask : Nat := SubstructureRedirectMask ||| SubstructureNotifyMask

/-- `XWindowAttributes`: the fields of the attribute record that
`window_manager.cpp` reads (geometry, override-redirect, map state). -/
structure XWindowAttributes where
  x : Int
  y : Int
  width : Int
  height : Int
  override_redirect : Bool
  map_state : Nat
  deriving Repr, DecidableEq

/-- `XWindowChanges` as filled in by `OnConfigureRequest`. -/
structure XWindowChanges where
  x : Int
  y : Int
  width : Int
  height : Int
  border_width : Int
  sibling : Window
  stack_mode : Int
  deriving Repr, DecidableEq

/-- `XConfigureRequestEvent`: the fields read by `OnConfigureRequest`. -/
structure XConfigureRequestEvent where
  window : Window
  x : Int
  y : Int
  width : Int
  height : Int
  border_width : Int
  above : Window
  detail : Int
  value_mask : Nat
  deriving Repr, DecidableEq

/-- `XUnmapEvent`: the fields read by `OnUnmapNotify` (`window` is the
unmapped window, `event` the window the notification was reported to). -/
structure XUnmapEvent where
  window : Window
  event : Window
  deriving Repr, DecidableEq

/-- `XMapRequestEvent`: the field read by `OnMapRequest`. -/
structure XMapRequestEvent where
  window : Window
  deriving Repr, DecidableEq

/-- One Xlib call issued by the manager, as recorded in the trace. -/
inductive XOp where
  | selectInput (w : Window) (mask : Nat)
  | sync
  | grabServer
  | ungrabServer
  | queryTree
  | getWindowAttributes (w : Window)
  | createSimpleWindow (parent : Window) (x y width height : Int)
      (border_width : Nat) (border bg : Nat) (result : Window)
  | addToSaveSet (w : Window)
  | removeFromSaveSet (w : Window)
  | reparentWindow (w parent : Window) (x y : Int)
  | mapWindow (w : Window)
  | unmapWindow (w : Window)
  | destroyWindow (w : Window)
  | configureWindow (w : Window) (value_mask : Nat) (changes : XWindowChanges)
  | xFree
  deriving Repr, DecidableEq

/-- The X server oracle: what the queries the manager makes during
startup and framing come back with.
* `rootSelectError`: `none` if the root `XSelectInput` is accepted,
  `some code` if the server reports error `code` for it (delivered to
  the installed error handler during `XSync`);
* `queryTree`: result of `XQueryTree` on the root (`none` = the call
  returns zero/failure), otherwise the returned root and the list of
  top-level children;
* `attrs`: result of `XGetWindowAttributes` per window (`none` = the
  call returns zero/failure, i.e. the window vanished). -/
structure XEnv where
  rootSelectError : Option Nat
  queryTree : Option (Window × List Window)
  attrs : Window → Option XWindowAttributes

/-! ### The client registry (`std::unordered_map<Window, Window> clients_`)

Modelled as an association list; `regAssign` is `clients_[w] = frame`
(replace-or-insert), `regIndex` is the read side of `operator[]`
(which default-inserts the value-initialized `Window`, i.e. `0`, when
the key is absent), `regErase` is `clients_.erase(w)` and `regCount`
is `clients_.count(w)`. -/

abbrev Registry : Type := List (Window × Window)

/-- Lookup of a key in the registry. -/
def regLookup : Registry → Window → Option Window
  | [], _ => none
  | (k, v) :: rest, w => if k = w then some v else regLookup rest w

/-- `unordered_map::count` (0 or 1). -/
def regCount (m : Registry) (w : Window) : Nat :=
  if (regLookup m w).isSome then 1 else 0

/-- `clients_[w] = frame`: replace the value if the key is present,
append the pair otherwise. -/
def regAssign : Registry → Window → Window → Registry
  | [], w, f => [(w, f)]
  | (k, v) :: rest, w, f =>
    if k = w then (w, f) :: rest else (k, v) :: regAssign rest w f

/-- Reading `clients_[w]`: if the key is absent, `operator[]`
default-inserts a value-initialized `Window` (`0`) and returns it.
Returns the value together with the possibly-extended registry. -/
def regIndex (m : Registry) (w : Window) : Window × Registry :=
  match regLookup m w with
  | some v => (v, m)
  | none => (0, m ++ [(w, 0)])

/-- `clients_.erase(w)`. -/
def regErase (m : Registry) (w : Window) : Registry :=
  m.filter (fun p => decide (p.1 ≠ w))

/-- Key uniqueness of the registry (an `unordered_map` invariant the
association-list model must maintain). -/
def regKeysNodup (m : Registry) : Prop :=
  (m.map Prod.fst).Nodup

/-- Manager-side mutable state: the `clients_` registry and a counter
handing out fresh window identifiers for `XCreateSimpleWindow`. -/
structure WMState where
  clients : Registry
  nextId : Window
  deriving Repr, DecidableEq

/-- Result of an operation that may hit a failing `CHECK`:
`fatal t` means the process aborted after issuing the calls `t`. -/
inductive FrameRes where
  | fatal (trace : List XOp)
  | done (s : WMState) (trace : List XOp)
  deriving Repr, DecidableEq

/-- `true` iff the result is the aborted (`CHECK`-failed) outcome. -/
def FrameRes.isFatal : FrameRes → Bool
  | .fatal _ => true
  | .done _ _ => false

/-- `WindowManager::Frame(Window w, bool was_created_before_window_manager)`
(window_manager.cpp:147).  Queries the window's attributes
(`CHECK(XGetWindowAttributes(...))` — a failed query aborts the
process), applies the pre-existing exclusion policy, then creates the
frame, selects substructure events on it, adds the client to the save
set, reparents the client into the frame at (0,0), maps the frame and
records `clients_[w] = frame`. -/
def Frame (env : XEnv) (root : Window) (s : WMState) (w : Window)
    (was_created_before_window_manager : Bool) : FrameRes :=
  match env.attrs w with
  | none => .fatal [.getWindowAttributes w]
  | some a =>
    if was_created_before_window_manager ∧
        (a.override_redirect = true ∨ a.map_state ≠ IsViewable) then
      .done s [.getWindowAttributes w]
    else
      let frame : Window := s.nextId
      .done { clients := regAssign s.clients w frame, nextId := s.nextId + 1 }
        [.getWindowAttributes w,
         .createSimpleWindow root a.x a.y a.width a.height 3 0xffff00 0x0000ff frame,
         .selectInput frame substructureMask,
         .addToSaveSet w,
         .reparentWindow w frame 0 0,
         .mapWindow frame]

/-- `WindowManager::Unframe(Window w)` (window_manager.cpp:212): reads
`clients_[w]` (note: `operator[]`, no membership check), unmaps the
frame, reparents the client back to the root at the origin, removes the
client from the save set, destroys the frame, and only then erases the
registry entry. -/
def Unframe (root : Window) (s : WMState) (w : Window) : WMState × List XOp :=
  let fr := regIndex s.clients w
  ({ s with clients := regErase fr.2 w },
   [.unmapWindow fr.1,
    .reparentWindow w root 0 0,
    .removeFromSaveSet w,
    .destroyWindow fr.1])

/-- `WindowManager::OnUnmapNotify` (window_manager.cpp:132): ignore
non-client windows, ignore notifications reported to the root
(synthetic unmaps from the startup reparents), otherwise unframe. -/
def OnUnmapNotify (root : Window) (s : WMState) (e : XUnmapEvent) :
    WMState × List XOp :=
  if regCount s.clients e.window = 0 then (s, [])
  else if e.event = root then (s, [])
  else Unframe root s e.window

/-- The changeset `OnConfigureRequest` builds from the event
(window_manager.cpp:240-246). -/
def changesOf (e : XConfigureRequestEvent) : XWindowChanges :=
  { x := e.x, y := e.y, width := e.width, height := e.height,
    border_width := e.border_width, sibling := e.above, stack_mode := e.detail }

/-- `WindowManager::OnConfigureRequest` (window_manager.cpp:237): copy
the event's fields into a changeset; if the window is framed, configure
the frame with the event's value-mask first; then grant the request on
the client window with the same mask and changeset. -/
def OnConfigureRequest (s : WMState) (e : XConfigureRequestEvent) :
    WMState × List XOp :=
  let changes := changesOf e
  if regCount s.clients e.window ≠ 0 then
    let fr := regIndex s.clients e.window
    ({ s with clients := fr.2 },
     [.configureWindow fr.1 e.value_mask changes,
      .configureWindow e.window e.value_mask changes])
  else
    (s, [.configureWindow e.window e.value_mask changes])

/-- `WindowManager::OnMapRequest` (window_manager.cpp:124): frame (or
reframe) the window with the pre-existing flag `false`, then map it. -/
def OnMapRequest (env : XEnv) (root : Window) (s : WMState)
    (e : XMapRequestEvent) : FrameRes :=
  match Frame env root s e.window false with
  | .fatal t => .fatal t
  | .done s' t => .done s' (t ++ [.mapWindow e.window])

/-- `WindowManager::OnWMDetected` (window_manager.cpp:258): the
detection-phase error handler.  `CHECK_EQ(e->error_code, BadAccess)`
aborts on any other code (`none`); otherwise it sets the process-wide
`wm_detected_` flag to `true`. -/
def OnWMDetected (errorCode : Nat) : Option Bool :=
  if errorCode = BadAccess then some true else none

/-- Events as dispatched by the `switch` in `Run`
(window_manager.cpp:88). -/
inductive XEvent where
  | createNotify
  | destroyNotify
  | reparentNotify
  | mapRequest (e : XMapRequestEvent)
  | mapNotify
  | unmapNotify (e : XUnmapEvent)
  | configureRequest (e : XConfigureRequestEvent)
  | configureNotify
  | other
  deriving Repr

/-- One iteration of the event dispatch loop: route the event to its
handler.  `OnCreateNotify`, `OnDestroyNotify`, `OnReparentNotify`,
`OnMapNotify` and `OnConfigureNotify` have empty bodies; unrecognized
events are logged and dropped. -/
def dispatchEvent (env : XEnv) (root : Window) (s : WMState) :
    XEvent → FrameRes
  | .mapRequest e => OnMapRequest env root s e
  | .unmapNotify e =>
    let r := OnUnmapNotify root s e
    .done r.1 r.2
  | .configureRequest e =>
    let r := OnConfigureRequest s e
    .done r.1 r.2
  | _ => .done s []

/-- Frame every enumerated top-level window in order with
`was_created_before_window_manager = true` (the loop in
window_manager.cpp:70-72), threading the state and concatenating the
traces; a `CHECK` failure inside `Frame` aborts. -/
def FrameAll (env : XEnv) (root : Window) : WMState → List Window → FrameRes
  | s, [] => .done s []
  | s, w :: ws =>
    match Frame env root s w true with
    | .fatal t => .fatal t
    | .done s' t =>
      match FrameAll env root s' ws with
      | .fatal t2 => .fatal (t ++ t2)
      | .done s'' t2 => .done s'' (t ++ t2)

/-- Outcome of `Run` up to the dispatch loop: `cleanExit` is the early
`return` (another manager detected), `fatal` a failed `CHECK`, and
`loop s` means the dispatch loop was entered with startup state `s`. -/
inductive RunRes where
  | cleanExit (trace : List XOp)
  | fatal (trace : List XOp)
  | loop (s : WMState) (trace : List XOp)
  deriving Repr, DecidableEq

/-- `WindowManager::Run` (window_manager.cpp:33) up to the dispatch
loop.  `wmDetected0` is the value the static `wm_detected_` flag holds
on entry; the first statement resets it to `false`.  Then: install
`OnWMDetected`, `XSelectInput` on the root, `XSync`, inspect the flag
(an error on the select is delivered to `OnWMDetected` during the
sync); on detection log and return.  Otherwise install `OnXError`,
`XGrabServer`, `CHECK(XQueryTree(...))`, `CHECK_EQ(returned_root,
root_)`, frame every child as pre-existing, `XFree`, `XUngrabServer`,
and enter the event loop. -/
def Run (env : XEnv) (root : Window) (wmDetected0 : Bool) : RunRes :=
  let _ := wmDetected0
  let wmDetected : Bool := false
  let t0 : List XOp := [.selectInput root substructureMask, .sync]
  let flagAfterSync : Option Bool :=
    match env.rootSelectError with
    | none => some wmDetected
    | some code => OnWMDetected code
  match flagAfterSync with
  | none => .fatal t0
  | some flag =>
    if flag then .cleanExit t0
    else
      let t1 : List XOp := t0 ++ [.grabServer, .queryTree]
      match env.queryTree with
      | none => .fatal t1
      | some (returned_root, top_level_windows) =>
        if returned_root ≠ root then .fatal t1
        else
          match FrameAll env root { clients := [], nextId := root + 1 }
              top_level_windows with
          | .fatal t2 => .fatal (t1 ++ t2)
          | .done s t2 => .loop s (t1 ++ t2 ++ [.xFree, .ungrabServer])

/-- Server-side semantics of `XConfigureWindow`: only the fields whose
bit is set in the value-mask (CWX, CWY, CWWidth, CWHeight,
CWBorderWidth, CWSibling, CWStackMode = bits 0..6) are applied to the
window's configuration; the rest are untouched. -/
def applyXConfigure (value_mask : Nat) (c g : XWindowChanges) : XWindowChanges :=
  { x := if value_mask.testBit 0 then c.x else g.x,
    y := if value_mask.testBit 1 then c.y else g.y,
    width := if value_mask.testBit 2 then c.width else g.width,
    height := if value_mask.testBit 3 then c.height else g.height,
    border_width := if value_mask.testBit 4 then c.border_width else g.border_width,
    sibling := if value_mask.testBit 5 then c.sibling else g.sibling,
    stack_mode := if value_mask.testBit 6 then c.stack_mode else g.stack_mode }

/-- Whether the pre-existing exclusion policy lets `w` be framed:
its attribute query succeeds, it is not override-redirect, and it is
currently viewable. -/
def eligiblePre (env : XEnv) (w : Window) : Bool :=
  match env.attrs w with
  | some a => !a.override_redirect && a.map_state == IsViewable
  | none => false

/-- Is this trace entry a reparent of client `w` (the marker of a
framing of `w`)? -/
def isReparentOf (w : Window) : XOp → Bool
  | .reparentWindow c _ _ _ => c == w
  | _ => false

/-- Number of framings of `w` recorded in a trace. -/
def framedCount (t : List XOp) (w : Window) : Nat :=
  t.countP (isReparentOf w)

/-! ### Run-result extractors -/

/-- The trace of Xlib calls a `Run` outcome carries. -/
def RunRes.trace : RunRes → List XOp
  | .cleanExit t => t
  | .fatal t => t
  | .loop _ t => t

/-- Did `Run` reach the event dispatch loop? -/
def RunRes.entersLoop : RunRes → Bool
  | .loop _ _ => true
  | _ => false

/-- The manager state at loop entry (dummy otherwise). -/
def RunRes.stateOf : RunRes → WMState
  | .loop s _ => s
  | _ => { clients := [], nextId := 0 }

/-- The explicit trace of a framing that passes the exclusion test. -/
def frameTrace (root : Window) (s : WMState) (w : Window)
    (a : XWindowAttributes) : List XOp :=
  [.getWindowAttributes w,
   .createSimpleWindow root a.x a.y a.width a.height 3 0xffff00 0x0000ff s.nextId,
   .selectInput s.nextId substructureMask,
   .addToSaveSet w,
   .reparentWindow w s.nextId 0 0,
   .mapWindow s.nextId]

/-! ### Fixtures for concrete witnesses -/

/-- Fixture environment: the root select-input is rejected with
`BadAccess` (another manager owns the display). -/
def envDetect : XEnv :=
  { rootSelectError := some BadAccess, queryTree := none, attrs := fun _ => none }

/-- Fixture environment: the select is accepted, but `XQueryTree` and
every attribute query fail. -/
def envVanish : XEnv :=
  { rootSelectError := none, queryTree := none, attrs := fun _ => none }

/-- Fixture manager state with two framed clients. -/
def sTwo : WMState := { clients := [(5, 11), (6, 12)], nextId := 13 }

/-- Fixture attributes: a mapped, non-override-redirect window. -/
def attrsOk : XWindowAttributes :=
  { x := 10, y := 20, width := 300, height := 200,
    override_redirect := false, map_state := IsViewable }

/-- Fixture attributes: an override-redirect window. -/
def attrsOR : XWindowAttributes := { attrsOk with override_redirect := true }

/-- Fixture startup environment: root 1 with three pre-existing
top-level windows, of which window 7 is override-redirect. -/
def envStart : XEnv :=
  { rootSelectError := none,
    queryTree := some (1, [5, 6, 7]),
    attrs := fun w =>
      if w = 7 then some attrsOR
      else if w = 5 ∨ w = 6 then some attrsOk
      else none }

/-- Fixture configure-request: window 5 asks for width/height
(value-mask bits 2 and 3, i.e. `CWWidth|CWHeight` = 12). -/
def eCfg : XConfigureRequestEvent :=
  { window := 5, x := 40, y := 50, width := 640, height := 480,
    border_width := 1, above := 0, detail := 0, value_mask := 12 }

/-- A fixture window configuration. -/
def gFix : XWindowChanges :=
  { x := 1, y := 2, width := 3, height := 4, border_width := 5,
    sibling := 6, stack_mode := 7 }

/-! ### Registry lemmas -/

theorem regIndex_of_lookup {m : Registry} {w v : Window}
    (h : regLookup m w = some v) : regIndex m w = (v, m) := by
  simp [regIndex, h]

theorem regCount_ne_zero_iff {m : Registry} {w : Window} :
    regCount m w ≠ 0 ↔ (regLookup m w).isSome := by
  unfold regCount
  cases regLookup m w <;> simp

theorem regLookup_regAssign_self (m : Registry) (w f : Window) :
    regLookup (regAssign m w f) w = some f := by
  induction m with
  | nil => simp [regAssign, regLookup]
  | cons p rest ih =>
    by_cases h : p.1 = w
    · simp [regAssign, h, regLookup]
    · simp [regAssign, h, regLookup, ih]

theorem regLookup_isSome_of_mem_keys {m : Registry} {k : Window}
    (h : k ∈ m.map Prod.fst) : (regLookup m k).isSome := by
  induction m with
  | nil => simp at h
  | cons p rest ih =>
    by_cases hp : p.1 = k
    · simp [regLookup, hp]
    · simp only [List.map_cons, List.mem_cons] at h
      rcases h with h1 | h2
      · exact absurd h1.symm hp
      · simp [regLookup, hp, ih h2]

theorem regAssign_keys (m : Registry) (w f : Window) :
    (regAssign m w f).map Prod.fst =
      if (regLookup m w).isSome then m.map Prod.fst
      else m.map Prod.fst ++ [w] := by
  induction m with
  | nil => simp [regAssign, regLookup]
  | cons p rest ih =>
    by_cases h : p.1 = w
    · simp [regAssign, h, regLookup]
    · by_cases h2 : (regLookup rest w).isSome
      · simp [regAssign, h, regLookup, ih, h2]
      · simp [regAssign, h, regLookup, ih, h2]

theorem regKeysNodup_regAssign {m : Registry} (w f : Window)
    (h : regKeysNodup m) : regKeysNodup (regAssign m w f) := by
  unfold regKeysNodup at h ⊢
  rw [regAssign_keys]
  split
  · exact h
  · next hlook =>
    rw [List.nodup_append]
    refine ⟨h, List.nodup_singleton w, ?_⟩
    intro k hk hw
    simp only [List.mem_singleton] at hw
    subst hw
    exact hlook (regLookup_isSome_of_mem_keys hk)

theorem regKeysNodup_regErase {m : Registry} (w : Window)
    (h : regKeysNodup m) : regKeysNodup (regErase m w) := by
  unfold regKeysNodup at h ⊢
  unfold regErase
  induction m with
  | nil => simp
  | cons p rest ih =>
    simp only [List.map_cons, List.nodup_cons] at h
    by_cases hp : p.1 = w
    · simp only [List.filter_cons, hp]
      simpa using ih h.2
    · simp only [List.filter_cons, decide_eq_true_eq]
      rw [if_pos hp]
      simp only [List.map_cons, List.nodup_cons]
      refine ⟨fun hc => h.1 ?_, ih h.2⟩
      obtain ⟨q, hq, hq1⟩ := List.mem_map.mp hc
      exact List.mem_map.mpr ⟨q, List.mem_of_mem_filter hq, hq1⟩

/-- The registry is untouched by `OnConfigureRequest` (the guarded
`clients_[e.window]` read cannot default-insert because the key is
known to be present). -/
theorem onConfigureRequest_state (s : WMState) (e : XConfigureRequestEvent) :
    (OnConfigureRequest s e).1 = s := by
  unfold OnConfigureRequest
  by_cases h : regCount s.clients e.window ≠ 0
  · obtain ⟨v, hv⟩ := Option.isSome_iff_exists.mp (regCount_ne_zero_iff.mp h)
    simp [h, regIndex_of_lookup hv]
  · simp [h]

/-! ### More registry lemmas -/

theorem regLookup_regAssign_ne (m : Registry) (w f v : Window) (h : v ≠ w) :
    regLookup (regAssign m w f) v = regLookup m v := by
  induction m with
  | nil =>
    simp only [regAssign, regLookup]
    rw [if_neg (fun hc : w = v => h hc.symm)]
  | cons p rest ih =>
    by_cases hp : p.1 = w
    · simp only [regAssign, if_pos hp, regLookup]
      rw [if_neg (fun hc : w = v => h hc.symm),
          if_neg (fun hc : p.1 = v => h (hp.symm.trans hc).symm)]
    · simp only [regAssign, if_neg hp, regLookup]
      by_cases hv : p.1 = v
      · rw [if_pos hv, if_pos hv]
      · rw [if_neg hv, if_neg hv, ih]

theorem regLookup_regErase_ne (m : Registry) (w v : Window) (h : v ≠ w) :
    regLookup (regErase m w) v = regLookup m v := by
  induction m with
  | nil => rfl
  | cons p rest ih =>
    by_cases hp : p.1 = w
    · have h1 : regErase (p :: rest) w = regErase rest w := by
        simp [regErase, List.filter_cons, hp]
      rw [h1, ih]
      simp only [regLookup]
      rw [if_neg (fun hc : p.1 = v => h (hp.symm.trans hc).symm)]
    · have h1 : regErase (p :: rest) w = p :: regErase rest w := by
        simp [regErase, List.filter_cons, hp]
      rw [h1]
      simp only [regLookup]
      by_cases hv : p.1 = v
      · rw [if_pos hv, if_pos hv]
      · rw [if_neg hv, if_neg hv, ih]

/-! ### Frame and startup lemmas -/

/-- A pre-existing window that is override-redirect or not viewable is
excluded: `Frame` returns with no state change after the attribute
query. -/
theorem frame_done_excluded (env : XEnv) (root : Window) (s : WMState)
    (w : Window) (a : XWindowAttributes) (ha : env.attrs w = some a)
    (hex : a.override_redirect = true ∨ a.map_state ≠ IsViewable) :
    Frame env root s w true = .done s [.getWindowAttributes w] := by
  simp only [Frame, ha]
  rw [if_pos ⟨by simp, hex⟩]

/-- A `Frame` call with the pre-existing flag `false` never applies the
exclusion policy: it always creates the frame and overwrites the
registry entry. -/
theorem frame_done_new (env : XEnv) (root : Window) (s : WMState)
    (w : Window) (a : XWindowAttributes) (ha : env.attrs w = some a) :
    Frame env root s w false = .done
      { clients := regAssign s.clients w s.nextId, nextId := s.nextId + 1 }
      (frameTrace root s w a) := by
  simp only [Frame, ha, frameTrace]
  rw [if_neg (by rintro ⟨h, -⟩; exact Bool.false_ne_true h)]

/-- An eligible (viewable, non-override-redirect) window is framed by
`Frame` regardless of the pre-existing flag. -/
theorem frame_done_eligible (env : XEnv) (root : Window) (s : WMState)
    (w : Window) (pre : Bool) (a : XWindowAttributes) (ha : env.attrs w = some a)
    (hov : a.override_redirect = false) (hms : a.map_state = IsViewable) :
    Frame env root s w pre = .done
      { clients := regAssign s.clients w s.nextId, nextId := s.nextId + 1 }
      (frameTrace root s w a) := by
  simp only [Frame, ha, frameTrace]
  rw [if_neg (by rintro ⟨-, h | h⟩ <;> simp_all)]

/-- The trace of a single pre-existing framing contains one reparent of
`w` if the window is eligible, none otherwise. -/
theorem frame_pre_framedCount {env : XEnv} {root : Window} {s : WMState}
    {w : Window} {s' : WMState} {t : List XOp}
    (h : Frame env root s w true = .done s' t) (v : Window) :
    framedCount t v = if v = w ∧ eligiblePre env w = true then 1 else 0 := by
  cases hA : env.attrs w with
  | none => simp [Frame, hA] at h
  | some a =>
    by_cases hex : a.override_redirect = true ∨ a.map_state ≠ IsViewable
    · rw [frame_done_excluded env root s w a hA hex] at h
      cases h
      have hel : eligiblePre env w = false := by
        unfold eligiblePre
        rw [hA]
        rcases hex with h1 | h1 <;> simp [h1]
      simp [framedCount, isReparentOf, hel]
    · push_neg at hex
      have hov : a.override_redirect = false := by
        cases hval : a.override_redirect
        · rfl
        · exact absurd hval hex.1
      rw [frame_done_eligible env root s w true a hA hov hex.2] at h
      cases h
      have hel : eligiblePre env w = true := by
        simp [eligiblePre, hA, hov, hex.2]
      by_cases hv : v = w
      · subst hv
        simp [framedCount, frameTrace, isReparentOf, hel, List.countP_cons]
      · simp [framedCount, frameTrace, isReparentOf, hel, List.countP_cons, hv,
          Ne.symm hv]

/-- The registry after a successful `Frame` is either untouched (the
exclusion policy fired) or the single insert `clients_[w] = frame`. -/
theorem frame_clients {env : XEnv} {root : Window} {s : WMState} {w : Window}
    {pre : Bool} {s' : WMState} {t : List XOp}
    (h : Frame env root s w pre = .done s' t) :
    s'.clients = s.clients ∨ s'.clients = regAssign s.clients w s.nextId := by
  cases hA : env.attrs w with
  | none => simp [Frame, hA] at h
  | some a =>
    simp only [Frame, hA] at h
    split at h
    · cases h; exact Or.inl rfl
    · cases h; exact Or.inr rfl

/-- Counting framings across the startup enumeration loop. -/
theorem frameAll_framedCount (env : XEnv) (root : Window) :
    ∀ (ws : List Window) (s s' : WMState) (t : List XOp),
      FrameAll env root s ws = .done s' t → ∀ v,
      framedCount t v = if eligiblePre env v = true then ws.count v else 0 := by
  intro ws
  induction ws with
  | nil =>
    intro s s' t h v
    simp only [FrameAll] at h
    cases h
    simp [framedCount]
  | cons w ws ih =>
    intro s s' t h v
    simp only [FrameAll] at h
    cases hF : Frame env root s w true with
    | fatal t1 => simp only [hF] at h; exact (FrameRes.noConfusion h)
    | done s1 t1 =>
      simp only [hF] at h
      cases hFA : FrameAll env root s1 ws with
      | fatal t2 => simp only [hFA] at h; exact (FrameRes.noConfusion h)
      | done s2 t2 =>
        simp only [hFA] at h
        cases h
        have h1 := frame_pre_framedCount hF v
        have h2 := ih s1 _ t2 hFA v
        have hsum : framedCount (t1 ++ t2) v = framedCount t1 v + framedCount t2 v := by
          simp [framedCount, List.countP_append]
        rw [hsum, h1, h2, List.count_cons]
        by_cases hv : v = w
        · subst hv
          by_cases he : eligiblePre env v = true
          · simp [he]
            omega
          · simp [he]
        · by_cases he : eligiblePre env v = true
          · simp [he, hv]
            exact fun hc => hv hc.symm
          · simp [he, hv]

/-- Startup framing cannot abort when every enumerated window's
attribute query succeeds. -/
theorem frameAll_done (env : XEnv) (root : Window) :
    ∀ (ws : List Window) (s : WMState),
      (∀ w ∈ ws, (env.attrs w).isSome = true) →
      ∃ s' t, FrameAll env root s ws = .done s' t := by
  intro ws
  induction ws with
  | nil => intro s _; exact ⟨s, [], rfl⟩
  | cons w ws ih =>
    intro s h
    obtain ⟨a, ha⟩ := Option.isSome_iff_exists.mp (h w (by simp))
    have hdone : ∃ s1 t1, Frame env root s w true = .done s1 t1 := by
      by_cases hex : a.override_redirect = true ∨ a.map_state ≠ IsViewable
      · exact ⟨s, _, frame_done_excluded env root s w a ha hex⟩
      · push_neg at hex
        have hov : a.override_redirect = false := by
          cases hval : a.override_redirect
          · rfl
          · exact absurd hval hex.1
        exact ⟨_, _, frame_done_eligible env root s w true a ha hov hex.2⟩
    obtain ⟨s1, t1, hF⟩ := hdone
    obtain ⟨s2, t2, hFA⟩ := ih s1 (fun x hx => h x (by simp [hx]))
    exact ⟨s2, t1 ++ t2, by simp only [FrameAll, hF, hFA]⟩

/-- Startup framing preserves key uniqueness of the registry. -/
theorem frameAll_nodup (env : XEnv) (root : Window) :
    ∀ (ws : List Window) (s s' : WMState) (t : List XOp),
      FrameAll env root s ws = .done s' t →
      regKeysNodup s.clients → regKeysNodup s'.clients := by
  intro ws
  induction ws with
  | nil =>
    intro s s' t h hn
    simp only [FrameAll] at h
    cases h
    exact hn
  | cons w ws ih =>
    intro s s' t h hn
    simp only [FrameAll] at h
    cases hF : Frame env root s w true with
    | fatal t1 => simp only [hF] at h; exact (FrameRes.noConfusion h)
    | done s1 t1 =>
      simp only [hF] at h
      cases hFA : FrameAll env root s1 ws with
      | fatal t2 => simp only [hFA] at h; exact (FrameRes.noConfusion h)
      | done s2 t2 =>
        simp only [hFA] at h
        cases h
        refine ih s1 _ t2 hFA ?_
        rcases frame_clients hF with h1 | h1
        · rw [h1]; exact hn
        · rw [h1]; exact regKeysNodup_regAssign _ _ hn

/-- The shape of a `Run` that reaches the dispatch loop. -/
theorem run_loop_eq (env : XEnv) (root : Window) (b : Bool)
    (children : List Window) (s' : WMState) (t2 : List XOp)
    (hsel : env.rootSelectError = none)
    (hqt : env.queryTree = some (root, children))
    (hFA : FrameAll env root { clients := [], nextId := root + 1 } children =
      .done s' t2) :
    Run env root b = .loop s'
      ([.selectInput root substructureMask, .sync, .grabServer, .queryTree]
        ++ t2 ++ [.xFree, .ungrabServer]) := by
  simp [Run, hsel, hqt, hFA]

/-- If `Run` reached the loop, the select-input was accepted. -/
theorem run_entersLoop_select (env : XEnv) (root : Window) (b : Bool)
    (h : (Run env root b).entersLoop = true) :
    env.rootSelectError = none := by
  cases hE : env.rootSelectError with
  | none => rfl
  | some c =>
    exfalso
    by_cases hc : c = BadAccess <;>
      simp [Run, hE, OnWMDetected, hc, RunRes.entersLoop] at h

/-- Inversion: a `Run` that reached the loop enumerated the root's
children and framed them all without aborting. -/
theorem run_entersLoop_inversion (env : XEnv) (root : Window) (b : Bool)
    (h : (Run env root b).entersLoop = true) :
    ∃ children, env.queryTree = some (root, children) ∧
      ∃ s' t2,
        FrameAll env root { clients := [], nextId := root + 1 } children =
          .done s' t2 ∧
        Run env root b = .loop s'
          ([.selectInput root substructureMask, .sync, .grabServer, .queryTree]
            ++ t2 ++ [.xFree, .ungrabServer]) := by
  have hsel := run_entersLoop_select env root b h
  cases hQ : env.queryTree with
  | none => exfalso; simp [Run, hsel, hQ, RunRes.entersLoop] at h
  | some p =>
    obtain ⟨rr, children⟩ := p
    by_cases hrr : rr = root
    · rw [hrr] at hQ
      cases hFA : FrameAll env root { clients := [], nextId := root + 1 } children with
      | fatal tf =>
        exfalso
        simp [Run, hsel, hQ, hFA, RunRes.entersLoop] at h
      | done s2 t2 =>
        exact ⟨children, by rw [hrr], s2, t2, hFA,
          run_loop_eq env root b children s2 t2 hsel hQ hFA⟩
    · exfalso; simp [Run, hsel, hQ, hrr, RunRes.entersLoop] at h

/-! ### Claim theorems -/

/-- C1: when the subscribe-to-root-structural-events request is rejected
with an access-denied (`BadAccess`) error, `Run` terminates before the
event dispatch loop with a clean reported exit (not a crash): the
detection flag is reset to `false` at the start regardless of its entry
value `wm0`, the request is forced to synchronous completion (`XSync`)
before the flag is inspected, and the trace is exactly the select-input
followed by the sync — no server grab, no `XQueryTree` window
enumeration and no framing operation are issued. -/
theorem c1_detection_clean_exit (env : XEnv) (root : Window) (wm0 : Bool)
    (h : env.rootSelectError = some BadAccess) :
    Run env root wm0 = .cleanExit [.selectInput root substructureMask, .sync] := by
  simp [Run, h, OnWMDetected]

theorem c1_detection_clean_exit_witness :
    envDetect.rootSelectError = some BadAccess ∧
    Run envDetect 1 true = .cleanExit [.selectInput 1 substructureMask, .sync] :=
  ⟨rfl, c1_detection_clean_exit envDetect 1 true rfl⟩

/-- C4 counterexample: for a window whose attribute query fails (the
window vanished before `Frame` ran), `Frame` does not return silently:
`CHECK(XGetWindowAttributes(...))` at window_manager.cpp:155 fails and
the process aborts (the `fatal` outcome), contradicting the claim that
the framing attempt is aborted silently without terminating the
process. -/
theorem c4_counterexample :
    (Frame envVanish 1 { clients := [], nextId := 2 } 5 true).isFatal = true := rfl

/-- C4 (amended): if the attribute query for the window fails, the
failed `CHECK` terminates the process; up to that point no frame has
been created and the client registry is unchanged (the only call issued
is the attribute query itself), but the failure is a fatal abort, not a
silent return. -/
theorem c4_query_failure_aborts (env : XEnv) (root : Window) (s : WMState)
    (w : Window) (pre : Bool) (h : env.attrs w = none) :
    Frame env root s w pre = .fatal [.getWindowAttributes w] := by
  simp [Frame, h]

theorem c4_query_failure_aborts_witness :
    envVanish.attrs 5 = none ∧
    Frame envVanish 1 { clients := [], nextId := 2 } 5 true =
      .fatal [.getWindowAttributes 5] :=
  ⟨rfl, c4_query_failure_aborts envVanish 1 { clients := [], nextId := 2 } 5 true rfl⟩

/-- C7: an unmap-notify for a window that is not in the client registry
is ignored by `OnUnmapNotify`: no protocol request is issued (empty
trace) and the manager state is unchanged. -/
theorem c7_unmap_nonclient_noop (root : Window) (s : WMState) (e : XUnmapEvent)
    (h : regCount s.clients e.window = 0) :
    OnUnmapNotify root s e = (s, []) := by
  simp [OnUnmapNotify, h]

theorem c7_unmap_nonclient_noop_witness :
    regCount sTwo.clients 7 = 0 ∧
    OnUnmapNotify 1 sTwo { window := 7, event := 11 } = (sTwo, []) :=
  ⟨by decide, c7_unmap_nonclient_noop 1 sTwo { window := 7, event := 11 } (by decide)⟩

/-- C8: for a window that is in the registry, an unmap-notify whose
reporting window (`e.event`) equals the root causes no unframe: the
handler returns with the state (registry entry and frame) unchanged and
issues no request. -/
theorem c8_root_reported_unmap_ignored (root : Window) (s : WMState)
    (e : XUnmapEvent) (hm : regCount s.clients e.window ≠ 0)
    (he : e.event = root) :
    OnUnmapNotify root s e = (s, []) := by
  simp [OnUnmapNotify, hm, he]

theorem c8_root_reported_unmap_ignored_witness :
    regCount sTwo.clients 5 ≠ 0 ∧
    OnUnmapNotify 1 sTwo { window := 5, event := 1 } = (sTwo, []) :=
  ⟨by decide, c8_root_reported_unmap_ignored 1 sTwo { window := 5, event := 1 }
    (by decide) rfl⟩

/-- C10: `Unframe` itself performs no membership check: called directly
on a window absent from the registry, the `clients_[w]` read
default-inserts a null (`0`) frame entry for the window, the unmap,
reparent-to-root, save-set-removal and destroy requests are issued
against that null frame identifier, and only then is the entry erased;
the membership precondition is enforced solely by the dispatcher's
unmap handler (`OnUnmapNotify` returns without calling `Unframe` for a
non-member). -/
theorem c10_unframe_default_inserts (root : Window) (s : WMState) (w : Window)
    (h : regLookup s.clients w = none) :
    regIndex s.clients w = (0, s.clients ++ [(w, 0)]) ∧
    Unframe root s w =
      ({ s with clients := regErase (s.clients ++ [(w, 0)]) w },
       [.unmapWindow 0, .reparentWindow w root 0 0,
        .removeFromSaveSet w, .destroyWindow 0]) ∧
    OnUnmapNotify root s { window := w, event := root } = (s, []) := by
  refine ⟨by simp [regIndex, h], ?_, ?_⟩
  · simp [Unframe, regIndex, h]
  · simp [OnUnmapNotify, regCount, h]

/-- C3: `OnConfigureRequest` leaves the registry unchanged and issues,
for a target in the registry, exactly two configure operations — first
to the frame, then to the client — both carrying the identical
value-mask and the identical changeset copied verbatim from the
request; for a target not in the registry, exactly one configure
operation, to the client itself.  Under the `XConfigureWindow`
semantics (`applyXConfigure`), fields whose bit is absent from the
value-mask are untouched on any window the operation is applied to. -/
theorem c3_configure_relay (s : WMState) (e : XConfigureRequestEvent) :
    (OnConfigureRequest s e).1 = s ∧
    (regCount s.clients e.window ≠ 0 →
      (OnConfigureRequest s e).2 =
        [.configureWindow ((regLookup s.clients e.window).getD 0)
           e.value_mask (changesOf e),
         .configureWindow e.window e.value_mask (changesOf e)]) ∧
    (regCount s.clients e.window = 0 →
      (OnConfigureRequest s e).2 =
        [.configureWindow e.window e.value_mask (changesOf e)]) ∧
    (∀ g : XWindowChanges,
      (e.value_mask.testBit 0 = false →
        (applyXConfigure e.value_mask (changesOf e) g).x = g.x) ∧
      (e.value_mask.testBit 1 = false →
        (applyXConfigure e.value_mask (changesOf e) g).y = g.y) ∧
      (e.value_mask.testBit 2 = false →
        (applyXConfigure e.value_mask (changesOf e) g).width = g.width) ∧
      (e.value_mask.testBit 3 = false →
        (applyXConfigure e.value_mask (changesOf e) g).height = g.height) ∧
      (e.value_mask.testBit 4 = false →
        (applyXConfigure e.value_mask (changesOf e) g).border_width = g.border_width) ∧
      (e.value_mask.testBit 5 = false →
        (applyXConfigure e.value_mask (changesOf e) g).sibling = g.sibling) ∧
      (e.value_mask.testBit 6 = false →
        (applyXConfigure e.value_mask (changesOf e) g).stack_mode = g.stack_mode)) := by
  refine ⟨onConfigureRequest_state s e, ?_, ?_, ?_⟩
  · intro h
    obtain ⟨v, hv⟩ := Option.isSome_iff_exists.mp (regCount_ne_zero_iff.mp h)
    simp [OnConfigureRequest, h, regIndex_of_lookup hv, hv]
  · intro h
    simp [OnConfigureRequest, h]
  · intro g
    refine ⟨?_, ?_, ?_, ?_, ?_, ?_, ?_⟩ <;>
      (intro hb; simp [applyXConfigure, hb])

theorem c3_configure_relay_witness :
    regCount sTwo.clients eCfg.window ≠ 0 ∧
    (OnConfigureRequest sTwo eCfg).2 =
      [.configureWindow ((regLookup sTwo.clients eCfg.window).getD 0)
         eCfg.value_mask (changesOf eCfg),
       .configureWindow eCfg.window eCfg.value_mask (changesOf eCfg)] ∧
    regCount sTwo.clients 7 = 0 ∧
    (OnConfigureRequest sTwo { eCfg with window := 7 }).2 =
      [.configureWindow 7 eCfg.value_mask (changesOf { eCfg with window := 7 })] ∧
    (applyXConfigure eCfg.value_mask (changesOf eCfg) gFix).x = gFix.x :=
  ⟨by decide,
   (c3_configure_relay sTwo eCfg).2.1 (by decide),
   by decide,
   (c3_configure_relay sTwo { eCfg with window := 7 }).2.2.1 (by decide),
   ((c3_configure_relay sTwo eCfg).2.2.2 gFix).1 (by decide)⟩

/-- C9: a map-request for a window already in the registry (old frame
`oldF`) runs `Frame` again with the pre-existing flag `false` (no
exclusion check) and then maps the window; the freshly created frame
`s.nextId` overwrites the registry entry for the window, and no request
is issued to unmap the old frame, destroy the old frame, reparent the
client back to the root, or remove it from the save set — the old frame
is simply abandoned. -/
theorem c9_maprequest_reframes (env : XEnv) (root : Window) (s : WMState)
    (w oldF : Window) (a : XWindowAttributes)
    (_hmem : regLookup s.clients w = some oldF)
    (ha : env.attrs w = some a)
    (hroot : s.nextId ≠ root) :
    OnMapRequest env root s { window := w } = .done
      { clients := regAssign s.clients w s.nextId, nextId := s.nextId + 1 }
      (frameTrace root s w a ++ [.mapWindow w]) ∧
    regLookup (regAssign s.clients w s.nextId) w = some s.nextId ∧
    XOp.mapWindow w ∈ frameTrace root s w a ++ [.mapWindow w] ∧
    XOp.unmapWindow oldF ∉ frameTrace root s w a ++ [.mapWindow w] ∧
    XOp.destroyWindow oldF ∉ frameTrace root s w a ++ [.mapWindow w] ∧
    XOp.reparentWindow w root 0 0 ∉ frameTrace root s w a ++ [.mapWindow w] ∧
    XOp.removeFromSaveSet w ∉ frameTrace root s w a ++ [.mapWindow w] := by
  refine ⟨?_, regLookup_regAssign_self s.clients w s.nextId, ?_, ?_, ?_, ?_, ?_⟩
  · simp [OnMapRequest, frame_done_new env root s w a ha]
  · simp [frameTrace]
  · simp [frameTrace]
  · simp [frameTrace]
  · simp only [frameTrace, List.mem_append, List.mem_cons]
    rintro (h | h) <;> simp_all
  · simp [frameTrace]

theorem c9_maprequest_reframes_witness :
    regLookup sTwo.clients 5 = some 11 ∧
    envStart.attrs 5 = some attrsOk ∧
    sTwo.nextId ≠ 1 ∧
    (OnMapRequest envStart 1 sTwo { window := 5 } = .done
       { clients := regAssign sTwo.clients 5 sTwo.nextId, nextId := sTwo.nextId + 1 }
       (frameTrace 1 sTwo 5 attrsOk ++ [.mapWindow 5]) ∧
     regLookup (regAssign sTwo.clients 5 sTwo.nextId) 5 = some sTwo.nextId ∧
     XOp.mapWindow 5 ∈ frameTrace 1 sTwo 5 attrsOk ++ [.mapWindow 5] ∧
     XOp.unmapWindow 11 ∉ frameTrace 1 sTwo 5 attrsOk ++ [.mapWindow 5] ∧
     XOp.destroyWindow 11 ∉ frameTrace 1 sTwo 5 attrsOk ++ [.mapWindow 5] ∧
     XOp.reparentWindow 5 1 0 0 ∉ frameTrace 1 sTwo 5 attrsOk ++ [.mapWindow 5] ∧
     XOp.removeFromSaveSet 5 ∉ frameTrace 1 sTwo 5 attrsOk ++ [.mapWindow 5]) :=
  ⟨by decide, by decide, by decide,
   c9_maprequest_reframes envStart 1 sTwo 5 11 attrsOk (by decide) (by decide) (by decide)⟩

/-- C2: the pre-existing framing policy.  First, any window passed to
`Frame` with the pre-existing flag `true` that is override-redirect or
not viewable is skipped: `Frame` returns with the registry unchanged
and no frame created.  Second, on a startup run that reaches the
dispatch loop, every enumerated pre-existing window that is mapped and
non-override-redirect is framed exactly once in the startup trace, and
every excluded one is framed zero times. -/
theorem c2_preexisting_framing_policy :
    (∀ (env : XEnv) (root : Window) (s : WMState) (w : Window)
        (a : XWindowAttributes),
        env.attrs w = some a →
        (a.override_redirect = true ∨ a.map_state ≠ IsViewable) →
        Frame env root s w true = .done s [.getWindowAttributes w]) ∧
    (∀ (env : XEnv) (root : Window) (b : Bool) (children : List Window),
        env.queryTree = some (root, children) →
        children.Nodup →
        (Run env root b).entersLoop = true →
        ∀ w ∈ children,
          (eligiblePre env w = true →
            framedCount (Run env root b).trace w = 1) ∧
          (eligiblePre env w = false →
            framedCount (Run env root b).trace w = 0)) := by
  refine ⟨frame_done_excluded, ?_⟩
  intro env root b children hqt hnd hloop w hw
  obtain ⟨children', hqt', s2, t2, hFA, hrun⟩ :=
    run_entersLoop_inversion env root b hloop
  have hch : children' = children := by
    rw [hqt] at hqt'
    cases hqt'
    rfl
  subst hch
  have hcount := frameAll_framedCount env root children' _ s2 t2 hFA w
  have htr : framedCount (Run env root b).trace w = framedCount t2 w := by
    rw [hrun]
    simp [RunRes.trace, framedCount, List.countP_append, isReparentOf,
      List.countP_cons]
  rw [htr, hcount]
  have hc1 : children'.count w = 1 := List.count_eq_one_of_mem hnd hw
  constructor
  · intro hel
    simp [hel, hc1]
  · intro hel
    simp [hel]

theorem c2_preexisting_framing_policy_witness :
    (Frame envStart 1 { clients := [], nextId := 2 } 7 true =
       .done { clients := [], nextId := 2 } [.getWindowAttributes 7]) ∧
    framedCount (Run envStart 1 false).trace 5 = 1 ∧
    framedCount (Run envStart 1 false).trace 7 = 0 :=
  ⟨c2_preexisting_framing_policy.1 envStart 1 { clients := [], nextId := 2 } 7
     attrsOR (by decide) (Or.inl (by decide)),
   (c2_preexisting_framing_policy.2 envStart 1 false [5, 6, 7] rfl (by decide)
     (by decide) 5 (by decide)).1 (by decide),
   (c2_preexisting_framing_policy.2 envStart 1 false [5, 6, 7] rfl (by decide)
     (by decide) 7 (by decide)).2 (by decide)⟩

/-- C5: the client registry is a single-writer map.  At loop entry the
registry built by the startup sequencer has unique keys, and every
dispatched event either leaves the registry untouched or changes it
through exactly one of the two writers: a changed binding at window `v`
means this step either framed `v` (the reparent of `v` into the fresh
frame `s.nextId` is in the step's trace — `Frame`'s insert) or unframed
`v` (the destroy of `v`'s recorded frame is in the trace — `Unframe`'s
erase); key uniqueness is preserved by every step. -/
theorem c5_registry_single_writer :
    (∀ (env : XEnv) (root : Window) (b : Bool),
        (Run env root b).entersLoop = true →
        regKeysNodup (Run env root b).stateOf.clients) ∧
    (∀ (env : XEnv) (root : Window) (s : WMState) (ev : XEvent)
        (s' : WMState) (t : List XOp),
        dispatchEvent env root s ev = .done s' t →
        (regKeysNodup s.clients → regKeysNodup s'.clients) ∧
        (∀ v, regLookup s'.clients v ≠ regLookup s.clients v →
          XOp.reparentWindow v s.nextId 0 0 ∈ t ∨
          XOp.destroyWindow ((regLookup s.clients v).getD 0) ∈ t)) := by
  constructor
  · intro env root b h
    obtain ⟨children, hqt, s2, t2, hFA, hrun⟩ :=
      run_entersLoop_inversion env root b h
    rw [hrun]
    exact frameAll_nodup env root children _ s2 t2 hFA (by simp [regKeysNodup])
  · intro env root s ev s' t h
    cases ev with
    | mapRequest e =>
      cases hA : env.attrs e.window with
      | none => simp [dispatchEvent, OnMapRequest, Frame, hA] at h
      | some a =>
        have hF := frame_done_new env root s e.window a hA
        simp only [dispatchEvent, OnMapRequest, hF] at h
        cases h
        constructor
        · intro hn
          exact regKeysNodup_regAssign _ _ hn
        · intro v hv
          by_cases hvw : v = e.window
          · subst hvw
            left
            simp [frameTrace]
          · exact absurd
              (regLookup_regAssign_ne s.clients e.window s.nextId v hvw) hv
    | unmapNotify e =>
      simp only [dispatchEvent] at h
      unfold OnUnmapNotify at h
      by_cases h0 : regCount s.clients e.window = 0
      · rw [if_pos h0] at h
        cases h
        exact ⟨id, fun v hv => absurd rfl hv⟩
      · rw [if_neg h0] at h
        by_cases hr : e.event = root
        · rw [if_pos hr] at h
          cases h
          exact ⟨id, fun v hv => absurd rfl hv⟩
        · rw [if_neg hr] at h
          obtain ⟨f, hf⟩ :=
            Option.isSome_iff_exists.mp (regCount_ne_zero_iff.mp h0)
          simp only [Unframe, regIndex_of_lookup hf] at h
          cases h
          constructor
          · intro hn
            exact regKeysNodup_regErase _ hn
          · intro v hv
            by_cases hvw : v = e.window
            · subst hvw
              right
              simp [hf]
            · exact absurd
                (regLookup_regErase_ne s.clients e.window v hvw) hv
    | configureRequest e =>
      simp only [dispatchEvent] at h
      cases h
      rw [onConfigureRequest_state s e]
      exact ⟨id, fun v hv => absurd rfl hv⟩
    | createNotify =>
      simp only [dispatchEvent] at h
      cases h
      exact ⟨id, fun v hv => absurd rfl hv⟩
    | destroyNotify =>
      simp only [dispatchEvent] at h
      cases h
      exact ⟨id, fun v hv => absurd rfl hv⟩
    | reparentNotify =>
      simp only [dispatchEvent] at h
      cases h
      exact ⟨id, fun v hv => absurd rfl hv⟩
    | mapNotify =>
      simp only [dispatchEvent] at h
      cases h
      exact ⟨id, fun v hv => absurd rfl hv⟩
    | configureNotify =>
      simp only [dispatchEvent] at h
      cases h
      exact ⟨id, fun v hv => absurd rfl hv⟩
    | other =>
      simp only [dispatchEvent] at h
      cases h
      exact ⟨id, fun v hv => absurd rfl hv⟩

theorem c5_registry_single_writer_witness :
    regKeysNodup (Run envStart 1 false).stateOf.clients ∧
    (XOp.reparentWindow 5 sTwo.nextId 0 0 ∈
       [XOp.unmapWindow 11, XOp.reparentWindow 5 1 0 0,
        XOp.removeFromSaveSet 5, XOp.destroyWindow 11] ∨
     XOp.destroyWindow ((regLookup sTwo.clients 5).getD 0) ∈
       [XOp.unmapWindow 11, XOp.reparentWindow 5 1 0 0,
        XOp.removeFromSaveSet 5, XOp.destroyWindow 11]) :=
  ⟨c5_registry_single_writer.1 envStart 1 false (by decide),
   (c5_registry_single_writer.2 envVanish 1 sTwo
     (.unmapNotify { window := 5, event := 11 }) _ _ rfl).2 5 (by decide)⟩

/-- C6 counterexample: the startup sequencer is not exception-safe
around the server grab.  In a session where the select succeeds but
`XQueryTree` fails, `CHECK(XQueryTree(...))` aborts the process after
`XGrabServer` was issued and before `XUngrabServer`: the trace of the
aborted run contains the grab but no release, refuting the claim that
the hold is released on every path that acquires it. -/
theorem c6_counterexample :
    Run envVanish 1 false =
      .fatal [.selectInput 1 substructureMask, .sync, .grabServer, .queryTree] ∧
    XOp.grabServer ∈ (Run envVanish 1 false).trace ∧
    XOp.ungrabServer ∉ (Run envVanish 1 false).trace :=
  ⟨by decide, by decide, by decide⟩

/-- C6 (amended): on every startup path on which the enumeration
succeeds (returning the manager's root) and every enumerated window's
attribute query succeeds, the exclusive hold is released: the run
reaches the dispatch loop and its trace contains the grab and ends with
the release.  On paths where the enumeration or an attribute query
fails, the process aborts via a failed `CHECK` without releasing the
hold (see the counterexample). -/
theorem c6_hold_released_on_success (env : XEnv) (root : Window) (b : Bool)
    (children : List Window)
    (hsel : env.rootSelectError = none)
    (hqt : env.queryTree = some (root, children))
    (hattrs : ∀ w ∈ children, (env.attrs w).isSome = true) :
    (Run env root b).entersLoop = true ∧
    XOp.grabServer ∈ (Run env root b).trace ∧
    (Run env root b).trace.getLast? = some XOp.ungrabServer := by
  obtain ⟨s', t2, hFA⟩ := frameAll_done env root children _ hattrs
  rw [run_loop_eq env root b children s' t2 hsel hqt hFA]
  refine ⟨rfl, ?_, ?_⟩
  · simp [RunRes.trace]
  · simp only [RunRes.trace, List.append_assoc]
    rw [List.getLast?_append_of_ne_nil]
    · rw [List.getLast?_append_of_ne_nil]
      · rfl
      · simp
    · simp

theorem c6_hold_released_on_success_witness :
    (Run envStart 1 false).entersLoop = true ∧
    XOp.grabServer ∈ (Run envStart 1 false).trace ∧
    (Run envStart 1 false).trace.getLast? = some XOp.ungrabServer :=
  c6_hold_released_on_success envStart 1 false [5, 6, 7] rfl rfl (by decide)

theorem c10_unframe_default_inserts_witness :
    regLookup sTwo.clients 7 = none ∧
    (regIndex sTwo.clients 7 = (0, sTwo.clients ++ [(7, 0)]) ∧
     Unframe 1 sTwo 7 =
       ({ sTwo with clients := regErase (sTwo.clients ++ [(7, 0)]) 7 },
        [.unmapWindow 0, .reparentWindow 7 1 0 0,
         .removeFromSaveSet 7, .destroyWindow 0]) ∧
     OnUnmapNotify 1 sTwo { window := 7, event := 1 } = (sTwo, [])) :=
  ⟨by decide, c10_unframe_default_inserts 1 sTwo 7 (by decide)⟩

end WindowManager
